import Mathlib

/-!
Verification of the retrofeed feed-rendering engine.

Shallow embedding of the parts of src/feeds.py and src/retrofeed.py that
the claims concern: the configuration merge performed by BaseFeed.__init__
together with BaseFeed._update_config, the header builder BaseFeed._get_header,
the refresh gate BaseFeed._refresh_data, and the content builders of
DatetimeFeed, FinanceFeed, NewsFeed and ISSFeed, plus the sequencer
construct_sequence from src/retrofeed.py.

Python dictionaries are modelled as association lists with first-match
lookup; Python datetimes are modelled as rational numbers of minutes, with
datetime.min as minute 0 (all real clock readings are nonnegative in this
scale); Python strings are Lean strings (the repository only manipulates
ASCII here, where Python's upper()/strip() agree with the character-wise
pyUpper/pyStrip defined below).
-/

/-! ### Configuration scope (BaseFeed.__init__ / _update_config) -/

/-- Scalar configuration value; ConfigVal.null models Python None. -/
inductive ConfigVal where
  | null : ConfigVal
  | str (s : String) : ConfigVal
  | int (n : Int) : ConfigVal
  | bool (b : Bool) : ConfigVal
deriving DecidableEq

/-- First-match lookup in an association-list dictionary. -/
def lookupKey (d : List (String × ConfigVal)) (k : String) : Option ConfigVal :=
  match d with
  | [] => none
  | (k2, v) :: rest => if k2 = k then some v else lookupKey rest k

/-- Python dict item assignment: replace the (first) binding of the key in
place, or append a new binding at the end. -/
def setKey (d : List (String × ConfigVal)) (k : String) (v : ConfigVal) :
    List (String × ConfigVal) :=
  match d with
  | [] => [(k, v)]
  | (k2, v2) :: rest => if k2 = k then (k, v) :: rest else (k2, v2) :: setKey rest k v

/-- Python dict.update, as used by BaseFeed._update_config: assign every
binding of the override dict into the base dict, in order. -/
def dictUpdate (base : List (String × ConfigVal)) :
    List (String × ConfigVal) → List (String × ConfigVal)
  | [] => base
  | (k, v) :: rest => dictUpdate (setKey base k v) rest

/-- Effective configuration of a constructed feed instance: BaseFeed.__init__
loads the base layer, then assigns config.header = None and
config.update_message = None, and the concrete feed constructor then merges
its per-feed overrides via _update_config. -/
def effectiveConfig (base overrides : List (String × ConfigVal)) :
    List (String × ConfigVal) :=
  dictUpdate (setKey (setKey base "header" ConfigVal.null) "update_message" ConfigVal.null)
    overrides

/-! ### Header builder (BaseFeed._get_header) -/

/-- Python str.upper: uppercase each character (ASCII; character-wise map
over the character list, which the kernel can evaluate). -/
def pyUpper (s : String) : String :=
  String.mk (s.data.map Char.toUpper)

/-- Python str.strip: drop leading and trailing whitespace characters. -/
def pyStrip (s : String) : String :=
  String.mk (((s.data.dropWhile Char.isWhitespace).reverse.dropWhile
    Char.isWhitespace).reverse)

/-- Python string repetition marker * n. -/
def strRepeat (s : String) : Nat → String
  | 0 => ""
  | n + 1 => s ++ strRepeat s n

/-- BaseFeed._get_header: strip and uppercase the title; if the title plus 4
fits strictly under line_width, repeat each marker floor((line_width - 4 -
len(title)) / 2) times; produce markers, space, title, space, markers. -/
def getHeader (lineWidth : Nat) (leftMarker title rightMarker : String) : String :=
  let s := pyUpper (pyStrip title)
  let numMarkers := if s.length + 4 < lineWidth then (lineWidth - 4 - s.length) / 2 else 0
  strRepeat leftMarker numMarkers ++ " " ++ s ++ " " ++ strRepeat rightMarker numMarkers

/-! ### Refresh gate (BaseFeed._refresh_data) -/

/-- Python datetime.min in the minutes-since-year-1 scale. -/
def datetimeMin : ℚ := 0

/-- BaseFeed._refresh_data refresh decision: data age is now minus the
fetched_on timestamp, with datetime.min standing in when the data dict has no
fetched_on entry; the fetch step runs exactly when the age is at least the
configured refresh interval (in minutes). -/
def shouldFetch (now : ℚ) (fetchedOn : Option ℚ) (refresh : ℚ) : Bool :=
  decide (refresh ≤ now - fetchedOn.getD datetimeMin)

/-! ### Clock feed (DatetimeFeed._set_content) -/

/-- Ordinal-suffix branch of DatetimeFeed._set_content: st for 1, 21, 31; nd
for 2, 22; rd for 3, 23; th otherwise. -/
def ordinalSuffix (dayNum : Nat) : String :=
  if dayNum = 1 ∨ dayNum = 21 ∨ dayNum = 31 then "st"
  else if dayNum = 2 ∨ dayNum = 22 then "nd"
  else if dayNum = 3 ∨ dayNum = 23 then "rd"
  else "th"

/-- Date text built by DatetimeFeed._set_content: the strftime output for the
configured format, then the day number, then its ordinal suffix. -/
def dateText (strftimeOut : String) (dayNum : Nat) : String :=
  strftimeOut ++ toString dayNum ++ ordinalSuffix dayNum

/-! ### Finance feed (FinanceFeed._set_content) -/

/-- Python str format with plain width (left-justify, pad with spaces). -/
def ljust (s : String) (w : Nat) : String :=
  s ++ String.mk (List.replicate (w - s.length) ' ')

/-- Python str format with a greater-than width (right-justify, pad with
spaces). -/
def rjust (s : String) (w : Nat) : String :=
  String.mk (List.replicate (w - s.length) ' ') ++ s

/-- Python substring containment needle in haystack. -/
def containsToken (needle haystack : String) : Bool :=
  (List.range (haystack.toList.length + 1)).any
    (fun k => needle.toList.isPrefixOf (haystack.toList.drop k))

/-- One market index entry of the finance snapshot (fields already formatted
as strings by the collaborator fetcher). -/
structure FinIndex where
  name : String
  price : String
  delta : String
  delta_pct : String
deriving DecidableEq

/-- Finance snapshot: market status message, fetch timestamp, index list. -/
structure FinanceData where
  market_message : String
  fetched_on : ℚ
  indexes : List FinIndex
deriving DecidableEq

/-- Lines the finance feed appends for one index: a blank sentinel, the
name/price line, the delta/delta-percent line, fixed-width aligned. -/
def finIndexBlock (i : FinIndex) : List String :=
  ["", "    " ++ ljust i.name 9 ++ "  " ++ rjust i.price 9,
   "               " ++ rjust i.delta 9 ++ "  " ++ i.delta_pct]

/-- FinanceFeed._set_content: the first line is the market message when the
uppercased message contains "CLOSED", else an "As of time" line; then, in
either case, the per-index blocks. The time formatter sp.format_time lives in
the external modules package, so it is passed in as a function. -/
def financeSetContent (formatTime : ℚ → String) (data : FinanceData) : List String :=
  (if containsToken "CLOSED" (pyUpper data.market_message) then [data.market_message]
   else ["As of " ++ formatTime data.fetched_on]) ++
  (data.indexes.map finIndexBlock).flatten

/-! ### News feed (NewsFeed._set_content) -/

/-- One headline item of the news snapshot. -/
structure NewsItem where
  headline : String
  summary : String
deriving DecidableEq

/-- Configuration slice NewsFeed._set_content reads. -/
structure NewsConfig where
  cycle : Bool
  items : Int
  show_summary : Bool
deriving DecidableEq

/-- Cursor advance of one loop iteration of NewsFeed._set_content: add the
1-based loop counter, then reset to 0 when the cursor reaches or passes the
item count. -/
def newsStep (itemCount : Nat) (i cursor : Nat) : Nat :=
  if itemCount ≤ cursor + i then 0 else cursor + i

/-- Loop body of NewsFeed._set_content over the list of 1-based loop-counter
values: returns the final cursor, the content lines appended, and the list of
item indices read. -/
def newsLoop (items : List NewsItem) (showSummary : Bool) :
    List Nat → Nat → Nat × List String × List Nat
  | [], cursor => (cursor, [], [])
  | i :: rest, cursor =>
    let c := newsStep items.length i cursor
    let item := items.getD c ⟨"", ""⟩
    let entry := ["", item.headline] ++ (if showSummary then ["", item.summary, ""] else [])
    let r := newsLoop items showSummary rest c
    (r.1, entry ++ r.2.1, c :: r.2.2)

/-- NewsFeed._set_content: when cycle is disabled the cursor is reset to 0
first; the loop then runs for i = 1 .. min(config.items, available), each
iteration advancing the cursor by i (wrapping to 0 on overflow) and appending
a blank sentinel, the headline, and optionally the summary wrapped in blank
sentinels. Returns final cursor, content, and indices read. -/
def newsSetContent (cfg : NewsConfig) (items : List NewsItem) (cursor : Nat) :
    Nat × List String × List Nat :=
  newsLoop items cfg.show_summary
    (List.range' 1 (min cfg.items (items.length : Int)).toNat)
    (if ¬cfg.cycle then 0 else cursor)

/-- Cursor sequence as the spec words it: starting from the current cursor,
the k-th selected index is obtained by advancing the previous one by k (the
1-based counter, an accelerating skip 1, 2, 3, ...), wrapping to 0 whenever
the advance reaches or passes the item count. Spec-side definition for the
refinement proof; newsLoop above is the code-side one. -/
def specCursorSeq (itemCount start : Nat) : Nat → Nat
  | 0 => start
  | k + 1 =>
    let c := specCursorSeq itemCount start k + (k + 1)
    if itemCount ≤ c then 0 else c

/-! ### ISS feed (ISSFeed._set_content) -/

/-- One sighting prediction of the ISS snapshot; date_time is the parsed
start time in minutes, the remaining fields are display strings. -/
structure Sighting where
  date_time : ℚ
  date_text : String
  time_text : String
  visible : String
  max_height : String
  appears : String
  disappears : String
deriving DecidableEq

/-- ISS snapshot: location label plus sighting list. -/
structure ISSData where
  location : String
  sightings : List Sighting
deriving DecidableEq

/-- Lines ISSFeed._set_content appends for one shown sighting. -/
def sightingBlock (s : Sighting) : List String :=
  ["", "    " ++ s.date_text ++ " @ " ++ s.time_text,
   "      Visible for " ++ s.visible,
   "      Max height " ++ s.max_height ++ " Degrees",
   "      From " ++ s.appears,
   "      To   " ++ s.disappears]

/-- Sighting loop of ISSFeed._set_content: walk the sightings in order,
showing each one whose start time is at or after the cutoff while fewer than
max_sightings have been shown. -/
def issLoop (cutoff : ℚ) (maxSightings : Int) :
    List Sighting → Nat → List String
  | [], _ => []
  | s :: rest, numShown =>
    if cutoff ≤ s.date_time ∧ (numShown : Int) < maxSightings then
      sightingBlock s ++ issLoop cutoff maxSightings rest (numShown + 1)
    else
      issLoop cutoff maxSightings rest numShown

/-- ISSFeed._set_content: with an empty sightings list the content is the
single no-sightings line; otherwise the location and an upcoming-sightings
title, followed by the qualifying sighting blocks. -/
def issSetContent (now : ℚ) (maxSightings : Int) (data : ISSData) : List String :=
  if data.sightings.length = 0 then ["No ISS Sightings Available"]
  else data.location :: "Upcoming ISS Sightings:" :: issLoop now maxSightings data.sightings 0

/-! ### Sequencer (construct_sequence in src/retrofeed.py) -/

/-- Python dict membership/lookup on the instances dict of construct_sequence. -/
def lookupInst : List (String × Nat) → String → Option Nat
  | [], _ => none
  | (k, v) :: rest, f => if k = f then some v else lookupInst rest f

/-- Construct-sequence loop: walk the configured feed names; a name already
instantiated reuses its existing instance, a new name creates a fresh
instance (identified here by a fresh number) and records it. -/
def buildSeq : List String → List (String × Nat) → Nat → List Nat
  | [], _, _ => []
  | f :: rest, instances, next =>
    match lookupInst instances f with
    | some id => id :: buildSeq rest instances next
    | none => next :: buildSeq rest ((f, next) :: instances) (next + 1)

/-- construct_sequence: the playlist of feed-instance identities built from
the configured sequence of feed names, starting from no instances. -/
def constructSequence (names : List String) : List Nat :=
  buildSeq names [] 0

/-- One pass of the main loop over a playlist, for a stateful render step:
each feed instance owns a state, looked up by instance identity, and a show
call replaces that instance's state and emits an output. Models that mutations
through one playlist slot are visible through every other slot holding the
same instance. -/
def runPass {σ α : Type} (step : σ → σ × α) :
    List Nat → (Nat → σ) → (Nat → σ) × List α
  | [], states => (states, [])
  | id :: rest, states =>
    let r := step (states id)
    let states2 := fun j => if j = id then r.1 else states j
    let rec2 := runPass step rest states2
    (rec2.1, r.2 :: rec2.2)

/-! ### Lemmas about the configuration merge -/

/-- Lookup after a single dict assignment: the assigned key reads the new
value, every other key is unchanged. -/
theorem lookupKey_setKey (d : List (String × ConfigVal)) (k : String) (v : ConfigVal)
    (k' : String) :
    lookupKey (setKey d k v) k' = if k' = k then some v else lookupKey d k' := by
  induction d with
  | nil =>
    by_cases h : k' = k
    · subst h; simp [setKey, lookupKey]
    · have h2 : ¬k = k' := fun hc => h hc.symm
      simp [setKey, lookupKey, h, h2]
  | cons kv rest ih =>
    obtain ⟨k2, v2⟩ := kv
    by_cases h2 : k2 = k
    · subst h2
      by_cases h3 : k' = k2
      · subst h3; simp [setKey, lookupKey]
      · have h4 : ¬k2 = k' := fun hc => h3 hc.symm
        simp [setKey, lookupKey, h3, h4]
    · by_cases h3 : k2 = k'
      · subst h3
        have h4 : ¬k2 = k := h2
        simp [setKey, lookupKey, h2, h4]
      · simp [setKey, lookupKey, h2, h3, ih]

/-- Lookup misses every dictionary whose keys avoid it. -/
theorem lookupKey_eq_none (d : List (String × ConfigVal)) (k : String)
    (h : k ∉ d.map Prod.fst) : lookupKey d k = none := by
  induction d with
  | nil => rfl
  | cons kv rest ih =>
    obtain ⟨k2, v2⟩ := kv
    have h1 : ¬k2 = k := by
      intro hc; exact h (by simp [hc])
    have h2 : k ∉ rest.map Prod.fst := by
      intro hc; exact h (by simp [hc])
    simp [lookupKey, h1, ih h2]

/-- Lookup after dict.update with a duplicate-free override dict: a key bound
by the overrides reads the override value, every other key reads the base. -/
theorem lookupKey_dictUpdate (ov : List (String × ConfigVal))
    (hnd : (ov.map Prod.fst).Nodup) (base : List (String × ConfigVal)) (k : String) :
    lookupKey (dictUpdate base ov) k =
      match lookupKey ov k with
      | some v => some v
      | none => lookupKey base k := by
  induction ov generalizing base with
  | nil => simp [dictUpdate, lookupKey]
  | cons kv rest ih =>
    obtain ⟨k1, v1⟩ := kv
    rw [List.map_cons, List.nodup_cons] at hnd
    obtain ⟨hk1, hrest⟩ := hnd
    by_cases hk : k = k1
    · subst hk
      have hnone : lookupKey rest k = none := lookupKey_eq_none rest k hk1
      simp [dictUpdate, lookupKey, ih hrest, hnone, lookupKey_setKey]
    · have hne : ¬k1 = k := fun hc => hk hc.symm
      simp [dictUpdate, lookupKey, ih hrest, hne, lookupKey_setKey, hk]

/-! ### Lemmas about the news rotation loop -/

/-- One code-side cursor step agrees with the next spec-side cursor value. -/
theorem newsStep_specCursorSeq (itemCount start k : Nat) :
    newsStep itemCount (k + 1) (specCursorSeq itemCount start k) =
      specCursorSeq itemCount start (k + 1) := rfl

/-- Indices read by the news loop, processing loop counters k+1 .. k+m from
the k-th spec cursor, are exactly the spec cursor values k+1 .. k+m. -/
theorem newsLoop_accessed (items : List NewsItem) (ss : Bool) (start : Nat) :
    ∀ (m k : Nat),
      (newsLoop items ss (List.range' (k + 1) m) (specCursorSeq items.length start k)).2.2 =
        (List.range' (k + 1) m).map (specCursorSeq items.length start) := by
  intro m
  induction m with
  | zero => intro k; simp [newsLoop]
  | succ m ih =>
    intro k
    rw [List.range'_succ]
    simp only [newsLoop, newsStep_specCursorSeq, List.map_cons]
    have := ih (k + 1)
    rw [show k + 1 + 1 = k + 2 from rfl] at this
    simp [this]

/-- Number of content lines appended by the news loop: each iteration appends
two lines, plus three more when summaries are shown. -/
theorem newsLoop_content_length (items : List NewsItem) (ss : Bool) :
    ∀ (is : List Nat) (cursor : Nat),
      (newsLoop items ss is cursor).2.1.length =
        is.length * (2 + if ss then 3 else 0) := by
  intro is
  induction is with
  | nil => intro cursor; simp [newsLoop]
  | cons i rest ih =>
    intro cursor
    cases ss <;> simp [newsLoop, ih] <;> ring

/-- Content appended by the news loop is the concatenation of the per-index
blocks over the list of indices it read. -/
theorem newsLoop_content (items : List NewsItem) (ss : Bool) :
    ∀ (is : List Nat) (cursor : Nat),
      (newsLoop items ss is cursor).2.1 =
        ((newsLoop items ss is cursor).2.2.map (fun c =>
          ["", (items.getD c ⟨"", ""⟩).headline] ++
            (if ss then ["", (items.getD c ⟨"", ""⟩).summary, ""] else []))).flatten := by
  intro is
  induction is with
  | nil => intro cursor; simp [newsLoop]
  | cons i rest ih =>
    intro cursor
    simp [newsLoop, ih]

/-- Every index the news loop reads is below the item count, for a non-empty
item list. -/
theorem newsLoop_accessed_lt (items : List NewsItem) (ss : Bool)
    (hne : items ≠ []) :
    ∀ (is : List Nat) (cursor : Nat),
      ∀ idx ∈ (newsLoop items ss is cursor).2.2, idx < items.length := by
  have hpos : 0 < items.length := List.length_pos.mpr hne
  intro is
  induction is with
  | nil => intro cursor idx h; simp [newsLoop] at h
  | cons i rest ih =>
    intro cursor idx h
    simp only [newsLoop, List.mem_cons] at h
    rcases h with h | h
    · subst h
      unfold newsStep
      split
      · exact hpos
      · omega
    · exact ih (newsStep items.length i cursor) idx h

/-- Final cursor of a non-empty news loop run is below the item count, for a
non-empty item list. -/
theorem newsLoop_fst_lt (items : List NewsItem) (ss : Bool)
    (hne : items ≠ []) :
    ∀ (is : List Nat) (cursor : Nat), is ≠ [] →
      (newsLoop items ss is cursor).1 < items.length := by
  have hpos : 0 < items.length := List.length_pos.mpr hne
  intro is
  induction is with
  | nil => intro cursor h; exact absurd rfl h
  | cons i rest ih =>
    intro cursor _
    cases rest with
    | nil =>
      simp only [newsLoop]
      unfold newsStep
      split
      · exact hpos
      · omega
    | cons j rest2 =>
      simp only [newsLoop]
      exact ih _ (by simp)

/-- Final cursor of an empty news loop run is the starting cursor. -/
theorem newsLoop_fst_nil (items : List NewsItem) (ss : Bool) (cursor : Nat) :
    (newsLoop items ss [] cursor).1 = cursor := rfl

/-! ### Lemmas about the ISS sighting loop -/

/-- The sighting loop produces nothing when every sighting starts before the
cutoff. -/
theorem issLoop_eq_nil (cutoff : ℚ) (maxSightings : Int) :
    ∀ (l : List Sighting) (numShown : Nat),
      (∀ s ∈ l, s.date_time < cutoff) →
      issLoop cutoff maxSightings l numShown = [] := by
  intro l
  induction l with
  | nil => intro numShown _; rfl
  | cons s rest ih =>
    intro numShown h
    have hs : s.date_time < cutoff := h s (by simp)
    have hrest : ∀ t ∈ rest, t.date_time < cutoff := fun t ht => h t (by simp [ht])
    simp only [issLoop]
    rw [if_neg (by intro hc; exact absurd hc.1 (not_le.mpr hs))]
    exact ih numShown hrest

/-! ### Lemmas about strings and the header builder -/

/-- Length of Python string repetition. -/
theorem strRepeat_length (s : String) : ∀ n : Nat, (strRepeat s n).length = n * s.length := by
  intro n
  induction n with
  | zero => simp [strRepeat]
  | succ m ih => simp [strRepeat, String.length_append, ih]; ring

/-! ### Lemmas about the sequencer -/

/-- Every later occurrence of an already-instantiated feed name resolves to
the recorded instance. -/
theorem buildSeq_get_of_lookup :
    ∀ (names : List String) (instances : List (String × Nat)) (next : Nat)
      (n : String) (id : Nat), lookupInst instances n = some id →
      ∀ k : Nat, names[k]? = some n → (buildSeq names instances next)[k]? = some id := by
  intro names
  induction names with
  | nil => intro instances next n id _ k hk; simp at hk
  | cons f rest ih =>
    intro instances next n id h k hk
    cases hlf : lookupInst instances f with
    | some fid =>
      simp only [buildSeq, hlf]
      cases k with
      | zero =>
        simp at hk ⊢
        subst hk
        rw [hlf] at h
        simpa using h
      | succ k2 =>
        simp at hk ⊢
        exact ih instances next n id h k2 hk
    | none =>
      have hfn : f ≠ n := by
        intro hc
        rw [hc, h] at hlf
        exact Option.noConfusion hlf
      simp only [buildSeq, hlf]
      cases k with
      | zero =>
        simp at hk
        exact absurd hk hfn
      | succ k2 =>
        simp at hk ⊢
        have h2 : lookupInst ((f, next) :: instances) n = some id := by
          simp [lookupInst, hfn, h]
        exact ih ((f, next) :: instances) (next + 1) n id h2 k2 hk

/-- Two occurrences of the same feed name in the configured sequence resolve
to the same instance. -/
theorem buildSeq_shared :
    ∀ (names : List String) (instances : List (String × Nat)) (next : Nat)
      (i j : Nat) (n : String),
      names[i]? = some n → names[j]? = some n →
      (buildSeq names instances next)[i]? = (buildSeq names instances next)[j]? := by
  intro names
  induction names with
  | nil => intro instances next i j n hi _; simp at hi
  | cons f rest ih =>
    intro instances next i j n hi hj
    cases hlf : lookupInst instances f with
    | some fid =>
      simp only [buildSeq, hlf]
      cases i with
      | zero =>
        cases j with
        | zero => rfl
        | succ j2 =>
          simp at hi hj ⊢
          subst hi
          exact (buildSeq_get_of_lookup rest instances next f fid hlf j2 hj).symm
      | succ i2 =>
        cases j with
        | zero =>
          simp at hi hj ⊢
          subst hj
          exact buildSeq_get_of_lookup rest instances next f fid hlf i2 hi
        | succ j2 =>
          simp at hi hj ⊢
          exact ih instances next i2 j2 n hi hj
    | none =>
      simp only [buildSeq, hlf]
      cases i with
      | zero =>
        cases j with
        | zero => rfl
        | succ j2 =>
          simp at hi hj ⊢
          subst hi
          have h2 : lookupInst ((f, next) :: instances) f = some next := by
            simp [lookupInst]
          exact (buildSeq_get_of_lookup rest _ (next + 1) f next h2 j2 hj).symm
      | succ i2 =>
        cases j with
        | zero =>
          simp at hi hj ⊢
          subst hj
          have h2 : lookupInst ((f, next) :: instances) f = some next := by
            simp [lookupInst]
          exact buildSeq_get_of_lookup rest _ (next + 1) f next h2 i2 hi
        | succ j2 =>
          simp at hi hj ⊢
          exact ih ((f, next) :: instances) (next + 1) i2 j2 n hi hj

/-! ## Claims -/

/-- Claim C1, counterexample: a finance snapshot whose market message
contains CLOSED and which carries one index does not produce the one-element
content list; the per-index loop runs regardless of the market status. -/
theorem claim_C1_counterexample :
    financeSetContent (fun _ => "")
        ⟨"Market is CLOSED for holiday", 0, [⟨"DOW", "1", "2", "3"⟩]⟩ ≠
      ["Market is CLOSED for holiday"] := by
  decide

/-- Claim C1, amended: when the uppercased market message contains CLOSED,
the message is the first content line in place of the as-of line, and the
per-index blocks still follow; the content is exactly the one-element message
list precisely when the snapshot carries no indexes. -/
theorem claim_C1_amended (formatTime : ℚ → String) (data : FinanceData)
    (h : containsToken "CLOSED" (pyUpper data.market_message) = true) :
    financeSetContent formatTime data =
        data.market_message :: (data.indexes.map finIndexBlock).flatten ∧
      (financeSetContent formatTime data = [data.market_message] ↔ data.indexes = []) := by
  refine ⟨by simp [financeSetContent, h], ?_, ?_⟩
  · intro h2
    rcases hidx : data.indexes with _ | ⟨i, rest⟩
    · rfl
    · simp [financeSetContent, h, hidx, finIndexBlock] at h2
  · intro h2
    simp [financeSetContent, h, h2]

/-- Claim C1, witness: the amended statement evaluated on a concrete closed
snapshot holding one index. -/
theorem claim_C1_witness :
    financeSetContent (fun _ => "T")
        ⟨"Market is CLOSED for holiday", 0, [⟨"DOW", "1", "2", "3"⟩]⟩ =
      "Market is CLOSED for holiday" ::
        (([⟨"DOW", "1", "2", "3"⟩] : List FinIndex).map finIndexBlock).flatten :=
  (claim_C1_amended (fun _ => "T")
    ⟨"Market is CLOSED for holiday", 0, [⟨"DOW", "1", "2", "3"⟩]⟩ (by decide)).1

/-- Claim C2, counterexample: a snapshot holding a single sighting that lies
in the past (so that no sighting qualifies) does not produce the single
no-sightings line; the empty-list check fires only on an empty list. -/
theorem claim_C2_counterexample :
    issSetContent 10 7 ⟨"LOC", [⟨5, "d", "t", "v", "m", "a", "x"⟩]⟩ ≠
      ["No ISS Sightings Available"] := by
  decide

/-- Claim C2, amended: the single no-sightings line appears exactly when the
sightings list is empty; when the list is non-empty but every sighting starts
before now, the content is the location header and the upcoming-sightings
title with no sighting blocks. -/
theorem claim_C2_amended (now : ℚ) (maxSightings : Int) (data : ISSData) :
    (data.sightings = [] →
        issSetContent now maxSightings data = ["No ISS Sightings Available"]) ∧
      (data.sightings ≠ [] → (∀ s ∈ data.sightings, s.date_time < now) →
        issSetContent now maxSightings data =
          [data.location, "Upcoming ISS Sightings:"]) := by
  constructor
  · intro h; simp [issSetContent, h]
  · intro h1 h2
    have hlen : ¬data.sightings.length = 0 := by
      simpa [List.length_eq_zero] using h1
    simp [issSetContent, hlen, issLoop_eq_nil now maxSightings data.sightings 0 h2]

/-- Claim C2, witness: the amended statement evaluated on a concrete snapshot
holding one past sighting. -/
theorem claim_C2_witness :
    issSetContent 10 7 ⟨"LOC", [⟨5, "d", "t", "v", "m", "a", "x"⟩]⟩ =
      ["LOC", "Upcoming ISS Sightings:"] :=
  (claim_C2_amended 10 7 ⟨"LOC", [⟨5, "d", "t", "v", "m", "a", "x"⟩]⟩).2
    (by decide) (by decide)

/-- Claim C3, counterexample: with a base layer binding header and no
override for it, the constructed feed does not retain the base value; the
constructor resets header (and update_message) to None before the merge. -/
theorem claim_C3_counterexample :
    lookupKey (effectiveConfig [("header", ConfigVal.str "retrofeed")] []) "header" ≠
      lookupKey [("header", ConfigVal.str "retrofeed")] "header" := by
  decide

/-- Claim C3, amended: the effective configuration maps every key bound by
the overrides to its override value; every other key retains its base-layer
value, except header and update_message, which read None whenever the
overrides do not bind them, regardless of the base layer. -/
theorem claim_C3_amended (base overrides : List (String × ConfigVal))
    (hnd : (overrides.map Prod.fst).Nodup) (k : String) :
    lookupKey (effectiveConfig base overrides) k =
      match lookupKey overrides k with
      | some v => some v
      | none =>
        if k = "header" ∨ k = "update_message" then some ConfigVal.null
        else lookupKey base k := by
  rw [effectiveConfig, lookupKey_dictUpdate overrides hnd]
  cases hov : lookupKey overrides k
  · simp only
    rw [lookupKey_setKey, lookupKey_setKey]
    by_cases h1 : k = "update_message"
    · simp [h1]
    · by_cases h2 : k = "header" <;> simp [h1, h2]
  · simp

/-- Claim C3, witness: the amended statement evaluated on a concrete base
layer and override dict, at an overridden key. -/
theorem claim_C3_witness :
    lookupKey
        (effectiveConfig [("line_width", ConfigVal.int 40), ("header", ConfigVal.str "x")]
          [("line_width", ConfigVal.int 20)]) "line_width" =
      some (ConfigVal.int 20) :=
  (claim_C3_amended [("line_width", ConfigVal.int 40), ("header", ConfigVal.str "x")]
    [("line_width", ConfigVal.int 20)] (by decide) "line_width").trans (by decide)

/-- Claim C4: with cycle enabled and a non-empty item list, one call of the
news content builder reads exactly min(items_wanted, available) items, the
k-th index read being the previous cursor advanced by the 1-based counter k
and wrapped to 0 whenever the advance reaches or passes the item count (the
spec-side accelerating-skip sequence specCursorSeq); the appended content is
the per-item blocks at those indices. -/
theorem claim_C4 (cfg : NewsConfig) (items : List NewsItem) (cursor : Nat)
    (hcy : cfg.cycle = true) ( _hne : items ≠ []) :
    ((newsSetContent cfg items cursor).2.2 =
        (List.range' 1 (min cfg.items (items.length : Int)).toNat).map
          (specCursorSeq items.length cursor)) ∧
      (newsSetContent cfg items cursor).2.2.length =
        (min cfg.items (items.length : Int)).toNat ∧
      (newsSetContent cfg items cursor).2.1.length =
        (min cfg.items (items.length : Int)).toNat *
          (2 + if cfg.show_summary then 3 else 0) ∧
      (newsSetContent cfg items cursor).2.1 =
        ((newsSetContent cfg items cursor).2.2.map (fun c =>
          ["", (items.getD c ⟨"", ""⟩).headline] ++
            (if cfg.show_summary then ["", (items.getD c ⟨"", ""⟩).summary, ""]
             else []))).flatten := by
  have hacc := newsLoop_accessed items cfg.show_summary cursor
    (min cfg.items (items.length : Int)).toNat 0
  refine ⟨?_, ?_, ?_, ?_⟩
  · simpa [newsSetContent, hcy, specCursorSeq] using hacc
  · have h1 : (newsSetContent cfg items cursor).2.2 =
        (List.range' 1 (min cfg.items (items.length : Int)).toNat).map
          (specCursorSeq items.length cursor) := by
      simpa [newsSetContent, hcy, specCursorSeq] using hacc
    rw [h1, List.length_map, List.length_range']
  · have := newsLoop_content_length items cfg.show_summary
      (List.range' 1 (min cfg.items (items.length : Int)).toNat)
      (if ¬cfg.cycle then 0 else cursor)
    simpa [newsSetContent, hcy] using this
  · exact newsLoop_content items cfg.show_summary
      (List.range' 1 (min cfg.items (items.length : Int)).toNat)
      (if ¬cfg.cycle then 0 else cursor)

/-- Claim C4, witness: the statement evaluated on a concrete four-item
snapshot with three items wanted; the indices read are 1, 3, 0. -/
theorem claim_C4_witness :
    (newsSetContent ⟨true, 3, false⟩
        [⟨"h1", "s1"⟩, ⟨"h2", "s2"⟩, ⟨"h3", "s3"⟩, ⟨"h4", "s4"⟩] 0).2.2 =
      (List.range' 1 (min (3 : Int) 4).toNat).map (specCursorSeq 4 0) :=
  (claim_C4 ⟨true, 3, false⟩ [⟨"h1", "s1"⟩, ⟨"h2", "s2"⟩, ⟨"h3", "s3"⟩, ⟨"h4", "s4"⟩] 0
    rfl (by decide)).1

/-- Claim C5, counterexample: at line width 5 the title hello does not fit
with its 4 padding characters, yet the header is not the bare trimmed
uppercased title: it keeps one flanking space on each side. -/
theorem claim_C5_counterexample :
    getHeader 5 "*" "hello" "*" ≠ pyUpper (pyStrip "hello") := by
  decide

/-- Claim C5, amended: with single-character markers, the header never
exceeds line_width whenever the trimmed uppercased title length plus 4 fits
within line_width; when it does not fit, the marker count is clamped to zero
and the header degrades to the title flanked by one space on each side. -/
theorem claim_C5_amended (lineWidth : Nat) (leftMarker title rightMarker : String)
    (hl : leftMarker.length = 1) (hr : rightMarker.length = 1) :
    ((pyUpper (pyStrip title)).length + 4 ≤ lineWidth →
        (getHeader lineWidth leftMarker title rightMarker).length ≤ lineWidth) ∧
      (lineWidth < (pyUpper (pyStrip title)).length + 4 →
        getHeader lineWidth leftMarker title rightMarker =
          " " ++ pyUpper (pyStrip title) ++ " ") := by
  constructor
  · intro h
    have hsp : (" " : String).length = 1 := rfl
    simp only [getHeader, String.length_append, strRepeat_length, hl, hr, hsp]
    by_cases hc : (pyUpper (pyStrip title)).length + 4 < lineWidth
    · simp only [if_pos hc]
      omega
    · simp only [if_neg hc]
      omega
  · intro h
    have hc : ¬((pyUpper (pyStrip title)).length + 4 < lineWidth) := by omega
    simp only [getHeader, if_neg hc, strRepeat, String.empty_append, String.append_empty]

/-- Claim C5, witness: the amended statement evaluated at line width 5 and
title hello. -/
theorem claim_C5_witness :
    getHeader 5 "*" "hello" "*" = " " ++ pyUpper (pyStrip "hello") ++ " " :=
  (claim_C5_amended 5 "*" "hello" "*" rfl rfl).2 (by decide)

/-- Claim C6: the refresh gate fires exactly when the data age reaches the
configured interval: with a recorded fetch time, fetch runs iff the interval
is at most now minus that time; a fetch time of now minus (interval minus
epsilon) does not fetch and now minus (interval plus epsilon) does, for every
positive epsilon; missing data is read as the minimal timestamp, hence always
fetches for any interval a real clock reading can exceed. -/
theorem claim_C6 :
    (∀ now t refresh : ℚ, shouldFetch now (some t) refresh = true ↔ refresh ≤ now - t) ∧
      (∀ now refresh ε : ℚ, 0 < ε →
        shouldFetch now (some (now - (refresh - ε))) refresh = false) ∧
      (∀ now refresh ε : ℚ, 0 < ε →
        shouldFetch now (some (now - (refresh + ε))) refresh = true) ∧
      (∀ now refresh : ℚ,
        shouldFetch now none refresh = shouldFetch now (some datetimeMin) refresh) ∧
      (∀ now refresh : ℚ, refresh ≤ now → shouldFetch now none refresh = true) := by
  refine ⟨?_, ?_, ?_, ?_, ?_⟩
  · intro now t refresh
    simp [shouldFetch]
  · intro now refresh ε hε
    simp only [shouldFetch, Option.getD_some, decide_eq_false_iff_not]
    intro hc
    linarith
  · intro now refresh ε hε
    simp only [shouldFetch, Option.getD_some, decide_eq_true_eq]
    linarith
  · intro now refresh
    rfl
  · intro now refresh h
    simp only [shouldFetch, Option.getD_none, datetimeMin, sub_zero, decide_eq_true_eq]
    exact h

/-- Claim C6, witness: the statement evaluated at interval 5 with epsilon 1:
age 4 does not fetch, age 6 does, and missing data fetches. -/
theorem claim_C6_witness :
    shouldFetch 100 (some ((100 : ℚ) - (5 - 1))) 5 = false ∧
      shouldFetch 100 (some ((100 : ℚ) - (5 + 1))) 5 = true ∧
      shouldFetch 1000000 none 5 = true :=
  ⟨claim_C6.2.1 100 5 1 (by norm_num), claim_C6.2.2.1 100 5 1 (by norm_num),
    claim_C6.2.2.2.2 1000000 5 (by norm_num)⟩

/-- Claim C7: for every day of month from 1 to 31, the ordinal suffix is st
exactly for 1, 21, 31, nd exactly for 2, 22, rd exactly for 3, 23, and th
for every other day, including 11, 12 and 13. -/
theorem claim_C7 (d : Nat) (h1 : 1 ≤ d) (h2 : d ≤ 31) :
    (ordinalSuffix d = "st" ↔ d = 1 ∨ d = 21 ∨ d = 31) ∧
      (ordinalSuffix d = "nd" ↔ d = 2 ∨ d = 22) ∧
      (ordinalSuffix d = "rd" ↔ d = 3 ∨ d = 23) ∧
      (¬(d = 1 ∨ d = 2 ∨ d = 3 ∨ d = 21 ∨ d = 22 ∨ d = 23 ∨ d = 31) →
        ordinalSuffix d = "th") := by
  interval_cases d <;> refine ⟨by decide, by decide, by decide, by decide⟩

/-- Claim C7, witness: day 13 takes th. -/
theorem claim_C7_witness : ordinalSuffix 13 = "th" :=
  (claim_C7 13 (by decide) (by decide)).2.2.2 (by decide)

/-- Claim C8: with cycle disabled the news content builder resets the cursor
to 0 before the loop, so its whole result, content included, is independent
of the incoming cursor; repeated calls on a fixed snapshot are identical. -/
theorem claim_C8 (cfg : NewsConfig) (items : List NewsItem) (c1 c2 : Nat)
    (h : cfg.cycle = false) :
    newsSetContent cfg items c1 = newsSetContent cfg items c2 := by
  simp [newsSetContent, h]

/-- Claim C8, witness: the statement evaluated on a concrete three-item
snapshot with cursors 2 and 0. -/
theorem claim_C8_witness :
    newsSetContent ⟨false, 2, true⟩ [⟨"h1", "s1"⟩, ⟨"h2", "s2"⟩, ⟨"h3", "s3"⟩] 2 =
      newsSetContent ⟨false, 2, true⟩ [⟨"h1", "s1"⟩, ⟨"h2", "s2"⟩, ⟨"h3", "s3"⟩] 0 :=
  claim_C8 ⟨false, 2, true⟩ [⟨"h1", "s1"⟩, ⟨"h2", "s2"⟩, ⟨"h3", "s3"⟩] 2 0 rfl

/-- Claim C9: two occurrences of the same feed name in the configured
sequence resolve to the same instance in the constructed playlist; and in a
pass over a playlist built from a twice-repeated name, the second show call
starts from the state left by the first, so mutations are visible across the
repeats. -/
theorem claim_C9 :
    (∀ (names : List String) (i j : Nat) (n : String),
        names[i]? = some n → names[j]? = some n →
        (constructSequence names)[i]? = (constructSequence names)[j]?) ∧
      (∀ (σ α : Type) (step : σ → σ × α) (states : Nat → σ) (n : String),
        (runPass step (constructSequence [n, n]) states).2 =
          [(step (states 0)).2, (step ((step (states 0)).1)).2]) := by
  constructor
  · intro names i j n hi hj
    exact buildSeq_shared names [] 0 i j n hi hj
  · intro σ α step states n
    simp [constructSequence, buildSeq, lookupInst, runPass]

/-- Claim C9, witness: the sharing statement evaluated on a sequence naming
news twice around clock. -/
theorem claim_C9_witness :
    (constructSequence ["news", "clock", "news"])[0]? =
      (constructSequence ["news", "clock", "news"])[2]? :=
  claim_C9.1 ["news", "clock", "news"] 0 2 "news" rfl rfl

/-- Claim C10, counterexample: with cycle enabled, zero items wanted and a
starting cursor past the end of a non-empty item list, the loop body never
runs, so the cursor stays out of range after the call; the claimed
unconditional post-bound on the cursor fails. -/
theorem claim_C10_counterexample :
    ¬((newsSetContent ⟨true, 0, false⟩
          [⟨"h1", "s1"⟩, ⟨"h2", "s2"⟩, ⟨"h3", "s3"⟩] 5).1 <
        ([⟨"h1", "s1"⟩, ⟨"h2", "s2"⟩, ⟨"h3", "s3"⟩] : List NewsItem).length) := by
  decide

/-- Claim C10, amended: on a non-empty item list, every index the news
content builder reads is in bounds (the cursor is wrapped before each read),
and the final cursor is within range whenever at least one item is rendered
or cycle is disabled; when cycle is enabled and zero items are rendered the
cursor is simply left unchanged. -/
theorem claim_C10_amended (cfg : NewsConfig) (items : List NewsItem) (cursor : Nat)
    (hne : items ≠ []) :
    (∀ idx ∈ (newsSetContent cfg items cursor).2.2, idx < items.length) ∧
      (1 ≤ (min cfg.items (items.length : Int)).toNat ∨ cfg.cycle = false →
        (newsSetContent cfg items cursor).1 < items.length) ∧
      (cfg.cycle = true ∧ (min cfg.items (items.length : Int)).toNat = 0 →
        (newsSetContent cfg items cursor).1 = cursor) := by
  have hpos : 0 < items.length := List.length_pos.mpr hne
  refine ⟨?_, ?_, ?_⟩
  · intro idx hidx
    exact newsLoop_accessed_lt items cfg.show_summary hne
      (List.range' 1 (min cfg.items (items.length : Int)).toNat)
      (if ¬cfg.cycle then 0 else cursor) idx hidx
  · intro h
    by_cases hm : (min cfg.items (items.length : Int)).toNat = 0
    · have hcf : cfg.cycle = false := by
        rcases h with h1 | h1
        · omega
        · exact h1
      simpa [newsSetContent, hcf, hm, newsLoop] using hpos
    · have hne2 : List.range' 1 (min cfg.items (items.length : Int)).toNat ≠ [] := by
        intro hc
        have h3 := congrArg List.length hc
        rw [List.length_range', List.length_nil] at h3
        exact hm h3
      exact newsLoop_fst_lt items cfg.show_summary hne
        (List.range' 1 (min cfg.items (items.length : Int)).toNat)
        (if ¬cfg.cycle then 0 else cursor) hne2
  · intro h
    simp [newsSetContent, h.1, h.2, newsLoop]

/-- Claim C10, witness: the amended statement evaluated on a concrete
three-item snapshot, cursor 5, two items wanted, cycle enabled: the final
cursor lands in range. -/
theorem claim_C10_witness :
    (newsSetContent ⟨true, 2, false⟩
        [⟨"h1", "s1"⟩, ⟨"h2", "s2"⟩, ⟨"h3", "s3"⟩] 5).1 <
      ([⟨"h1", "s1"⟩, ⟨"h2", "s2"⟩, ⟨"h3", "s3"⟩] : List NewsItem).length :=
  (claim_C10_amended ⟨true, 2, false⟩ [⟨"h1", "s1"⟩, ⟨"h2", "s2"⟩, ⟨"h3", "s3"⟩] 5
    (by decide)).2.1 (by decide)
